import Mathlib

/-
Verification of MacEverything (src/mac_everything.py): a shallow embedding of
the debounce, search-execution, formatting and sort-comparator logic, with
theorems settling the specification claims about them.

Python machine-level conventions used by the embedding:
  - Python str.strip() is modelled as dropping whitespace characters from both
    ends (the character class is approximated by Char.isWhitespace);
  - str.splitlines() is modelled for newline-separated text, which is what the
    mdfind facility emits; a single trailing empty line is dropped, as Python does;
  - the format specifier with a comma option is modelled as decimal rendering
    with a comma between each group of three digits counted from the right;
  - the fixed-point float format specifiers are modelled by exact rational
    rounding (round half to even), which agrees with the CPython double-based
    rendering for every byte count below 2 to the 53rd, since the divisors are
    powers of two and the quotients are then exact in a double.
-/

namespace MacEverything

/-! ## Decimal rendering (model of Python str/format on nonnegative integers) -/

/-- Decimal digit characters of a number, least significant first; driven by a
fuel argument so that it is structurally recursive and kernel-reducible. -/
def decAux : Nat → Nat → List Char
  | 0, _ => []
  | fuel + 1, n =>
      if n < 10 then [Nat.digitChar n]
      else Nat.digitChar (n % 10) :: decAux fuel (n / 10)

/-- Decimal digit characters of a number, least significant first. -/
def decDigitsRev (n : Nat) : List Char := decAux (n + 1) n

/-- Decimal rendering of a nonnegative integer, model of Python str(n). -/
def decString (n : Nat) : String := String.mk (decDigitsRev n).reverse

/-- Insert a comma after every third character of a reversed digit list. -/
def groupRev : List Char → List Char
  | a :: b :: c :: d :: rest => a :: b :: c :: ',' :: groupRev (d :: rest)
  | l => l

/-- Thousands-separated decimal rendering, model of the Python comma format
option: a comma between each group of three digits counted from the right. -/
def commafy (n : Nat) : String := String.mk (groupRev (decDigitsRev n)).reverse

/-- Round num/den to the nearest integer, ties to even; the rounding mode used
by CPython when formatting a float with a fixed number of decimals. -/
def roundHalfEven (num den : Nat) : Nat :=
  let q := num / den
  let r := num % den
  if 2 * r < den then q
  else if den < 2 * r then q + 1
  else if q % 2 = 0 then q else q + 1

/-- Pad a string on the left with zeros up to the given width. -/
def padZeros (s : String) (width : Nat) : String :=
  String.mk (List.replicate (width - s.length) '0') ++ s

/-- Fixed-point rendering of num/den with prec digits after the point: the
model of the Python float format specifiers .0f, .1f, .2f applied to the
quotient (exact rational rounding, half to even). -/
def formatFixed (num den prec : Nat) : String :=
  if prec = 0 then decString (roundHalfEven num den)
  else
    decString (roundHalfEven (num * 10 ^ prec) den / 10 ^ prec) ++ "." ++
      padZeros (decString (roundHalfEven (num * 10 ^ prec) den % 10 ^ prec)) prec

/-! ## The two size formatters (src/mac_everything.py lines 43-57) -/

/-- format_size_kb, lines 43-46: floor-divide bytes by 1024, minimum 1,
thousands-grouped, suffixed with a KB label. -/
def format_size_kb (size_in_bytes : Nat) : String :=
  commafy (max 1 (size_in_bytes / 1024)) ++ " KB"

/-- format_size_full, lines 48-57: unit chosen by strict thresholds at the
powers of 1024; bytes verbatim, KB with 0 decimals, MB with 1, GB with 2. -/
def format_size_full (size_in_bytes : Nat) : String :=
  if size_in_bytes < 1024 then commafy size_in_bytes ++ " B"
  else if size_in_bytes < 1024 * 1024 then
    formatFixed size_in_bytes 1024 0 ++ " KB"
  else if size_in_bytes < 1024 * 1024 * 1024 then
    formatFixed size_in_bytes (1024 * 1024) 1 ++ " MB"
  else
    formatFixed size_in_bytes (1024 * 1024 * 1024) 2 ++ " GB"

/-! ## String comparison (model of Python str comparison, used by Qt text sort) -/

/-- Lexicographic comparison of char lists by code point. -/
def strLtChars : List Char → List Char → Bool
  | [], [] => false
  | [], _ :: _ => true
  | _ :: _, [] => false
  | a :: as, b :: bs => if a < b then true else if b < a then false else strLtChars as bs

/-- Model of the Python less-than on strings: lexicographic by code point.
Qt compares the displayed text of plain tree items the same way. -/
def strLt (a b : String) : Bool := strLtChars a.toList b.toList

/-! ## Python string helpers used by perform_search -/

/-- Model of Python str.strip(): drop whitespace from both ends. -/
def strip (s : String) : String :=
  String.mk (((s.toList.dropWhile Char.isWhitespace).reverse.dropWhile
    Char.isWhitespace).reverse)

/-- Split a char list at every newline character, keeping empty pieces. -/
def splitOnNlAux : List Char → List Char → List String
  | [], acc => [String.mk acc.reverse]
  | c :: rest, acc =>
      if c = '\n' then String.mk acc.reverse :: splitOnNlAux rest []
      else splitOnNlAux rest (c :: acc)

/-- Model of Python str.splitlines() on newline-separated text: split at each
newline and drop a single trailing empty line, so that empty input gives no
lines at all, as in Python. -/
def splitlines (s : String) : List String :=
  let parts := splitOnNlAux s.toList []
  if parts.getLast? = some "" then parts.dropLast else parts

/-- Line 211 of the source: the facility output split into lines with the
blank lines discarded. This list is what the status count is taken from. -/
def searchResults (stdout : String) : List String :=
  (splitlines stdout).filter (fun path => strip path ≠ "")

/-! ## Path helpers (models of os.path.basename / os.path.dirname) -/

/-- Model of os.path.basename: the part after the last slash. -/
def basename (p : String) : String :=
  String.mk (p.toList.reverse.takeWhile (fun c => c ≠ '/')).reverse

/-- Model of os.path.dirname: the part before the last slash, with trailing
slashes removed unless the head consists only of slashes. -/
def dirname (p : String) : String :=
  let head := (p.toList.reverse.dropWhile (fun c => c ≠ '/')).reverse
  if head.all (fun c => c = '/') then String.mk head
  else String.mk ((head.reverse.dropWhile (fun c => c = '/')).reverse)

/-! ## Data model: result rows, external world, search outcome -/

/-- Result of os.stat for one path: the two fields the program reads. The
modification time is modelled as an integer number of time units. -/
structure StatResult where
  st_size : Nat
  st_mtime : Int
  deriving DecidableEq

/-- Result of subprocess.run for the search facility. -/
structure ProcResult where
  returncode : Int
  stdout : String
  stderr : String
  deriving DecidableEq

/-- The external world perform_search interacts with: the mdfind facility
(keyed by the query string), the per-path stat accessor (none models the
FileNotFoundError / PermissionError outcomes), and the local-time timestamp
formatter (format_time, line 59, an out-of-scope datetime boundary). -/
structure Env where
  run_mdfind : String → ProcResult
  stat : String → Option StatResult
  formatTime : Int → String

/-- One row of the result tree: the four column texts and the raw data stored
under the user role for columns 0, 2 and 3 (source lines 222-231). -/
structure Item where
  text0 : String
  text1 : String
  text2 : String
  text3 : String
  pathData : Option String
  sizeData : Option Nat
  mtimeData : Option Int
  deriving DecidableEq

/-- Qt text(column): the display text of the given column, empty out of range. -/
def Item.text (it : Item) : Nat → String
  | 0 => it.text0
  | 1 => it.text1
  | 2 => it.text2
  | 3 => it.text3
  | _ => ""

/-- The comparator written in FileTreeWidget.__lt__ (source lines 34-41):
numeric on the stored raw size for column 2, numeric on the stored raw
modification time for column 3 (a missing value counting as 0, from the
idiom that replaces a vacuous value by 0), display text otherwise. -/
def itemLt (column : Nat) (a b : Item) : Bool :=
  if column = 2 then decide (a.sizeData.getD 0 < b.sizeData.getD 0)
  else if column = 3 then decide (a.mtimeData.getD 0 < b.mtimeData.getD 0)
  else strLt (a.text column) (b.text column)

/-- Build the tree item for one surviving path (source lines 216-231). -/
def mkRow (env : Env) (path : String) (st : StatResult) : Item :=
  { text0 := basename path
    text1 := dirname path
    text2 := format_size_kb st.st_size
    text3 := env.formatTime st.st_mtime
    pathData := some path
    sizeData := some st.st_size
    mtimeData := some st.st_mtime }

/-- The observable outcome of one perform_search call: the facility commands
it ran, the rows left in the result tree, and the final status label text
(the empty string modelling a cleared label). -/
structure SearchOutcome where
  invocations : List (List String)
  rows : List Item
  status : String
  deriving DecidableEq

/-- The status text chosen from the count (source lines 238-242). -/
def countMessage (count : Nat) : String :=
  if count > 0 then "找到 " ++ decString count ++ " 个结果" else "未找到结果"

/-- perform_search (source lines 191-245) as a function of the external world
and the current text box content read at timer expiry. The text is stripped
(line 193); empty stripped text clears rows and status without running the
facility (lines 195-198); a nonzero exit becomes the error status built from
the raised message and the standard error text, with the cleared tree kept
empty (lines 200-209, 244-245); otherwise the non-blank output lines are
statted one by one, failures dropped (lines 211-235), and the status reports
the count of the non-blank output lines (lines 237-242). -/
def perform_search (env : Env) (content : String) : SearchOutcome :=
  if strip content = "" then { invocations := [], rows := [], status := "" }
  else if (env.run_mdfind (strip content)).returncode ≠ 0 then
    { invocations := [["mdfind", "-name", strip content]]
      rows := []
      status := "搜索出错: 搜索失败: " ++ (env.run_mdfind (strip content)).stderr }
  else
    { invocations := [["mdfind", "-name", strip content]]
      rows := (searchResults (env.run_mdfind (strip content)).stdout).filterMap
        (fun path => (env.stat path).map (mkRow env path))
      status := countMessage (searchResults (env.run_mdfind (strip content)).stdout).length }

/-! ## Debouncer (source lines 144-148, 183-189) -/

/-- The fixed single-shot timer interval set in the constructor (line 147). -/
def search_timer_interval : Nat := 300

/-- State observed by on_search_text_changed: the last seen text and an
instrumentation counter of how many times the timer was (re)started. -/
structure DebounceState where
  last_search_text : String
  timer_starts : Nat
  deriving DecidableEq

/-- on_search_text_changed (source lines 183-189): nothing happens when the
text equals the last observed value; otherwise the value is recorded and the
single-shot timer is restarted. -/
def on_search_text_changed (st : DebounceState) (text : String) : DebounceState :=
  if text = st.last_search_text then st
  else { last_search_text := text, timer_starts := st.timer_starts + 1 }

/-! ## Row selection and activation handlers (source lines 258-276) -/

/-- The window state the two row handlers can touch: the current result rows
and the status label text. -/
structure AppState where
  rows : List Item
  status : String
  deriving DecidableEq

/-- update_status_for_item (source lines 258-266): read the stored path and
raw size of the item and, when both are present and the path is non-empty,
show the full-precision size in the status label; every failure is swallowed. -/
def update_status_for_item (s : AppState) (item : Item) : AppState :=
  match item.pathData, item.sizeData with
  | some path, some size_bytes =>
      if path ≠ "" then { s with status := "文件大小: " ++ format_size_full size_bytes }
      else s
  | _, _ => s

/-- on_item_double_clicked (source lines 268-276): read the stored path and,
when present and non-empty, invoke the reveal action on it; openErr models
whether that subprocess call raises, in which case the status label shows the
failure text. -/
def on_item_double_clicked (openErr : String → Option String) (s : AppState)
    (item : Item) : AppState :=
  match item.pathData with
  | some path =>
      if path ≠ "" then
        match openErr path with
        | none => s
        | some e => { s with status := "打开文件失败: " ++ e }
      else s
  | none => s

/-! ## Spec-side rendering for the thousands-grouping claim

The claim describes the KB label as the thousands-grouped decimal rendering.
groupedDecimal follows that description directly, by splitting the number
itself into groups of one thousand, independently of the digit-character
grouping that commafy performs; the two are proved equal below. -/

/-- Exactly three decimal digit characters, for one thousands group. -/
def pad3 (m : Nat) : String :=
  String.mk [Nat.digitChar (m / 100 % 10), Nat.digitChar (m / 10 % 10),
    Nat.digitChar (m % 10)]

/-- Thousands-grouped decimal rendering as the spec words it: the groups of
three digits counted from the right, separated by commas. -/
def groupedDecimal (n : Nat) : String :=
  if _h : n < 1000 then decString n
  else groupedDecimal (n / 1000) ++ "," ++ pad3 (n % 1000)
termination_by n
decreasing_by omega

/-! ## Helper lemmas about the decimal rendering -/

theorem decAux_succ (fuel n : Nat) :
    decAux (fuel + 1) n =
      if n < 10 then [Nat.digitChar n]
      else Nat.digitChar (n % 10) :: decAux fuel (n / 10) := rfl

theorem decAux_eq (n : Nat) : ∀ f, n < f → decAux f n = decDigitsRev n := by
  induction n using Nat.strong_induction_on with
  | _ n ih =>
    intro f hf
    obtain ⟨g, rfl⟩ : ∃ g, f = g + 1 := ⟨f - 1, by omega⟩
    unfold decDigitsRev
    rw [decAux_succ, decAux_succ]
    by_cases h : n < 10
    · rw [if_pos h, if_pos h]
    · rw [if_neg h, if_neg h,
        ih (n / 10) (by omega) g (by omega), ih (n / 10) (by omega) n (by omega)]

theorem decDigitsRev_of_lt (n : Nat) (h : n < 10) :
    decDigitsRev n = [Nat.digitChar n] := by
  unfold decDigitsRev
  rw [decAux_succ, if_pos h]

theorem decDigitsRev_of_ge (n : Nat) (h : ¬ n < 10) :
    decDigitsRev n = Nat.digitChar (n % 10) :: decDigitsRev (n / 10) := by
  unfold decDigitsRev
  rw [decAux_succ, if_neg h, decAux_eq (n / 10) n (by omega)]
  rfl

theorem decDigitsRev_exists (n : Nat) : ∃ c cs, decDigitsRev n = c :: cs := by
  by_cases h : n < 10
  · exact ⟨_, _, decDigitsRev_of_lt n h⟩
  · exact ⟨_, _, decDigitsRev_of_ge n h⟩

theorem decDigitsRev_length_le_three (n : Nat) (h : n < 1000) :
    (decDigitsRev n).length ≤ 3 := by
  by_cases h1 : n < 10
  · rw [decDigitsRev_of_lt n h1]; simp
  · rw [decDigitsRev_of_ge n h1]
    by_cases h2 : n / 10 < 10
    · rw [decDigitsRev_of_lt _ h2]; simp
    · rw [decDigitsRev_of_ge _ h2, decDigitsRev_of_lt (n / 10 / 10) (by omega)]
      simp

theorem decDigitsRev_split (n : Nat) (h : 1000 ≤ n) :
    decDigitsRev n = Nat.digitChar (n % 10) :: Nat.digitChar (n / 10 % 10) ::
      Nat.digitChar (n / 100 % 10) :: decDigitsRev (n / 1000) := by
  rw [decDigitsRev_of_ge n (by omega), decDigitsRev_of_ge (n / 10) (by omega),
    decDigitsRev_of_ge (n / 10 / 10) (by omega)]
  have h1 : n / 10 / 10 = n / 100 := by omega
  rw [h1]
  have h2 : n / 100 / 10 = n / 1000 := by omega
  rw [h2]

theorem groupRev_cons4 (a b c d : Char) (rest : List Char) :
    groupRev (a :: b :: c :: d :: rest) = a :: b :: c :: ',' :: groupRev (d :: rest) := rfl

theorem groupRev_short (l : List Char) (h : l.length ≤ 3) : groupRev l = l := by
  rcases l with _ | ⟨a, _ | ⟨b, _ | ⟨c, _ | ⟨d, rest⟩⟩⟩⟩
  · rfl
  · rfl
  · rfl
  · rfl
  · simp at h

theorem strmk_append (xs ys : List Char) :
    String.mk (xs ++ ys) = String.mk xs ++ String.mk ys := rfl

theorem commafy_step (n : Nat) (h : 1000 ≤ n) :
    commafy n = commafy (n / 1000) ++ "," ++ pad3 (n % 1000) := by
  obtain ⟨c, cs, hc⟩ := decDigitsRev_exists (n / 1000)
  unfold commafy pad3
  rw [decDigitsRev_split n h, hc, groupRev_cons4, ← hc]
  have e1 : n % 1000 % 10 = n % 10 := by omega
  have e2 : n % 1000 / 10 % 10 = n / 10 % 10 := by omega
  have e3 : n % 1000 / 100 % 10 = n / 100 % 10 := by omega
  rw [e1, e2, e3, show ("," : String) = String.mk [','] from rfl,
    ← strmk_append, ← strmk_append]
  congr 1
  simp

theorem commafy_eq_groupedDecimal (n : Nat) : commafy n = groupedDecimal n := by
  induction n using Nat.strong_induction_on with
  | _ n ih =>
    by_cases h : n < 1000
    · unfold groupedDecimal
      rw [dif_pos h]
      unfold commafy decString
      rw [groupRev_short _ (decDigitsRev_length_le_three n h)]
    · rw [commafy_step n (by omega)]
      unfold groupedDecimal
      rw [dif_neg h, ih (n / 1000) (by omega)]

/-! ## Concrete inputs used by individual claims -/

/-- A row as perform_search builds it for a file of the given size. -/
def rowOfSize (n : Nat) : Item :=
  { text0 := "f", text1 := "/d", text2 := format_size_kb n, text3 := ""
    pathData := some "/d/f", sizeData := some n, mtimeData := some 0 }

/-- A world in which the facility returns one path that vanishes before its
attributes can be read: the stat accessor fails on every path. -/
def envGone : Env :=
  { run_mdfind := fun _ => { returncode := 0, stdout := "gone", stderr := "" }
    stat := fun _ => none
    formatTime := fun _ => "" }

/-- A world in which the facility returns two readable paths. -/
def envTwo : Env :=
  { run_mdfind := fun _ => { returncode := 0, stdout := "a\nb", stderr := "" }
    stat := fun _ => some { st_size := 10, st_mtime := 0 }
    formatTime := fun _ => "" }

/-- A world in which the facility exits with status 1 and a diagnostic. -/
def envFail : Env :=
  { run_mdfind := fun _ => { returncode := 1, stdout := "", stderr := "boom" }
    stat := fun _ => none
    formatTime := fun _ => "" }

/-- A world in which the facility succeeds with empty output. -/
def envQuiet : Env :=
  { run_mdfind := fun _ => { returncode := 0, stdout := "", stderr := "" }
    stat := fun _ => none
    formatTime := fun _ => "" }

/-! ## The claims -/

/-- C1: the comparator written in FileTreeWidget.__lt__ does compare rows
numerically on the raw stored size for column 2, ordering the sizes 100, 500,
2000 ascending; yet the formatted size labels of 2000000 and 500000 bytes are
1,953 KB and 488 KB, and plain text comparison — which is what the running
program performs on the size column, because the overridden comparison sits on
the tree widget subclass while the rows are plain tree items that Qt compares
by display text — puts the two-megabyte row first. -/
theorem C1_size_sort_on_labels_misorders :
    itemLt 2 (rowOfSize 100) (rowOfSize 500) = true ∧
    itemLt 2 (rowOfSize 500) (rowOfSize 2000) = true ∧
    itemLt 2 (rowOfSize 500000) (rowOfSize 2000000) = true ∧
    itemLt 2 (rowOfSize 2000000) (rowOfSize 500000) = false ∧
    (rowOfSize 2000000).text2 = "1,953 KB" ∧
    (rowOfSize 500000).text2 = "488 KB" ∧
    strLt ((rowOfSize 2000000).text2) ((rowOfSize 500000).text2) = true := by
  decide

/-- C2, as stated, is false: the reported count is taken from the facility
output lines before the stat loop, so a row dropped by a failed stat is still
counted. In the world envGone the status reports one result while the result
tree holds no row at all. -/
theorem C2_counterexample :
    ¬ (∀ (env : Env) (content : String),
        strip content ≠ "" → (env.run_mdfind (strip content)).returncode = 0 →
        (perform_search env content).status =
          countMessage (perform_search env content).rows.length) := by
  intro h
  exact absurd (h envGone "q" (by decide) rfl) (by decide)

/-- C2 amended: after a successful search the status reports the count of the
non-blank facility output lines; rows whose stat fails are excluded from the
result set but still counted, so the displayed rows never exceed — but can
fall short of — the reported count. -/
theorem C2_count_is_facility_count (env : Env) (content : String)
    (h1 : strip content ≠ "")
    (h2 : (env.run_mdfind (strip content)).returncode = 0) :
    (perform_search env content).status =
      countMessage (searchResults (env.run_mdfind (strip content)).stdout).length ∧
    (perform_search env content).rows.length ≤
      (searchResults (env.run_mdfind (strip content)).stdout).length := by
  unfold perform_search
  rw [if_neg h1, if_neg (not_not_intro h2)]
  exact ⟨rfl, List.length_filterMap_le _ _⟩

theorem C2_count_is_facility_count_witness :
    (perform_search envTwo "q").status = countMessage 2 ∧
    (perform_search envTwo "q").rows.length ≤ 2 :=
  C2_count_is_facility_count envTwo "q" (by decide) rfl

/-- C3: when the facility exits nonzero, the result tree stays empty and the
status label carries the standard error text inside the error message. -/
theorem C3_nonzero_exit_empty_table (env : Env) (content : String)
    (h1 : strip content ≠ "")
    (h2 : (env.run_mdfind (strip content)).returncode ≠ 0) :
    (perform_search env content).rows = [] ∧
    (perform_search env content).status =
      "搜索出错: 搜索失败: " ++ (env.run_mdfind (strip content)).stderr := by
  unfold perform_search
  rw [if_neg h1, if_pos h2]
  exact ⟨rfl, rfl⟩

theorem C3_nonzero_exit_empty_table_witness :
    (perform_search envFail "q").rows = [] ∧
    (perform_search envFail "q").status = "搜索出错: 搜索失败: boom" :=
  C3_nonzero_exit_empty_table envFail "q" (by decide) (by decide)

/-- C4, as stated, is false: perform_search strips the text box content
before using it, so a whitespace-only content — which is non-empty — produces
no facility invocation at all (and content with surrounding whitespace is
searched in stripped form, not literally). -/
theorem C4_counterexample :
    ¬ (∀ (env : Env) (content : String), content ≠ "" →
        (perform_search env content).invocations =
          [["mdfind", "-name", content]]) := by
  intro h
  exact absurd (h envQuiet " " (by decide)) (by decide)

/-- C4 amended: on timer expiry the current text box content is stripped of
surrounding whitespace; when the stripped query is non-empty the facility is
invoked exactly once, as mdfind -name followed by the stripped query, and
when it is empty the facility is not invoked at all. -/
theorem C4_invocation_stripped (env : Env) (content : String) :
    (strip content ≠ "" →
      (perform_search env content).invocations =
        [["mdfind", "-name", strip content]]) ∧
    (strip content = "" → (perform_search env content).invocations = []) := by
  constructor
  · intro h
    unfold perform_search
    rw [if_neg h]
    by_cases h2 : (env.run_mdfind (strip content)).returncode ≠ 0
    · rw [if_pos h2]
    · rw [if_neg h2]
  · intro h
    unfold perform_search
    rw [if_pos h]

theorem C4_invocation_stripped_witness :
    (perform_search envQuiet " a ").invocations = [["mdfind", "-name", "a"]] :=
  (C4_invocation_stripped envQuiet " a ").1 (by decide)

/-- C5: a text change equal to the last observed value leaves the debounce
state untouched — the timer is not restarted; a differing value is recorded
and restarts the single-shot timer, whose interval is 300 milliseconds. -/
theorem C5_debounce_no_op_on_same_text (st : DebounceState) (text : String) :
    (text = st.last_search_text → on_search_text_changed st text = st) ∧
    (text ≠ st.last_search_text →
      (on_search_text_changed st text).last_search_text = text ∧
      (on_search_text_changed st text).timer_starts = st.timer_starts + 1) ∧
    search_timer_interval = 300 := by
  refine ⟨fun h => ?_, fun h => ?_, rfl⟩
  · unfold on_search_text_changed
    rw [if_pos h]
  · unfold on_search_text_changed
    rw [if_neg h]
    exact ⟨rfl, rfl⟩

theorem C5_debounce_no_op_on_same_text_witness :
    on_search_text_changed ⟨"abc", 5⟩ "abc" = ⟨"abc", 5⟩ ∧
    (on_search_text_changed ⟨"abc", 5⟩ "abcd").timer_starts = 6 :=
  ⟨(C5_debounce_no_op_on_same_text ⟨"abc", 5⟩ "abc").1 rfl,
    ((C5_debounce_no_op_on_same_text ⟨"abc", 5⟩ "abcd").2.1 (by decide)).2⟩

/-- C6: when the timer expires with empty text box content, the result set
and the status label are cleared and the facility is not invoked. -/
theorem C6_empty_content_clears (env : Env) :
    (perform_search env "").rows = [] ∧
    (perform_search env "").status = "" ∧
    (perform_search env "").invocations = [] := by
  unfold perform_search
  rw [if_pos (show strip "" = "" from rfl)]
  exact ⟨rfl, rfl, rfl⟩

/-- C7: the KB label is the thousands-grouped decimal rendering of the floor
quotient of the size by 1024, with a minimum of 1, suffixed with KB; in
particular 0, 5120 and 1500 bytes render as 1 KB, 5 KB and 1 KB. -/
theorem C7_format_size_kb_spec (n : Nat) :
    format_size_kb n = groupedDecimal (max 1 (n / 1024)) ++ " KB" ∧
    format_size_kb 0 = "1 KB" ∧
    format_size_kb (1024 * 5) = "5 KB" ∧
    format_size_kb 1500 = "1 KB" := by
  refine ⟨?_, by decide, by decide, by decide⟩
  unfold format_size_kb
  rw [commafy_eq_groupedDecimal]

/-- C8: the full-precision size label selects its unit by strict thresholds
at the powers of 1024 — bytes below 1024, KB with zero decimals below the
square, MB with one decimal below the cube, GB with two decimals otherwise —
with the quoted concrete renderings. -/
theorem C8_format_size_full_units (n : Nat) :
    (n < 1024 → format_size_full n = commafy n ++ " B") ∧
    (1024 ≤ n → n < 1024 * 1024 →
      format_size_full n = formatFixed n 1024 0 ++ " KB") ∧
    (1024 * 1024 ≤ n → n < 1024 * 1024 * 1024 →
      format_size_full n = formatFixed n (1024 * 1024) 1 ++ " MB") ∧
    (1024 * 1024 * 1024 ≤ n →
      format_size_full n = formatFixed n (1024 * 1024 * 1024) 2 ++ " GB") ∧
    format_size_full 500 = "500 B" ∧
    format_size_full 2048 = "2 KB" ∧
    format_size_full (5 * 1024 * 1024) = "5.0 MB" ∧
    format_size_full (3 * 1024 * 1024 * 1024) = "3.00 GB" := by
  refine ⟨fun h1 => ?_, fun h1 h2 => ?_, fun h1 h2 => ?_, fun h1 => ?_,
    by decide, by decide, by decide, by decide⟩
  · unfold format_size_full
    rw [if_pos h1]
  · unfold format_size_full
    rw [if_neg (by omega), if_pos h2]
  · unfold format_size_full
    rw [if_neg (by omega), if_neg (by omega), if_pos h2]
  · unfold format_size_full
    rw [if_neg (by omega), if_neg (by omega), if_neg (by omega)]

theorem C8_format_size_full_units_witness :
    format_size_full 2048 = formatFixed 2048 1024 0 ++ " KB" :=
  (C8_format_size_full_units 2048).2.1 (by decide) (by decide)

/-- C9: the row selection handler and the row activation handler leave the
result set unchanged in every state, whatever the reveal action does — both
only read the row and update the status label. -/
theorem C9_handlers_preserve_rows (openErr : String → Option String)
    (s : AppState) (item : Item) :
    (update_status_for_item s item).rows = s.rows ∧
    (on_item_double_clicked openErr s item).rows = s.rows := by
  constructor
  · unfold update_status_for_item
    split
    · split <;> rfl
    · rfl
  · unfold on_item_double_clicked
    split
    · split
      · split <;> rfl
      · rfl
    · rfl

/-- C10: every exact power-of-1024 boundary falls in the larger unit because
the thresholds are strict, and an input just below the square of 1024 rounds
up to a nominally out-of-range KB value. -/
theorem C10_boundary_classification :
    format_size_full 1024 = "1 KB" ∧
    format_size_full (1024 * 1024) = "1.0 MB" ∧
    format_size_full (1024 * 1024 * 1024) = "1.00 GB" ∧
    1048575 < 1024 * 1024 ∧
    format_size_full 1048575 = "1024 KB" := by
  decide

end MacEverything
